import Mathlib

/-!
# ViSP: scan-line visibility comparators and the FLIR PTU robot interface

A shallow embedding of the comparators and accessors of
`modules/mbt/include/visp3/mbt/vpMbScanLine.h` and of the command-checking
paths of `modules/robot/src/real-robot/flir-ptu/vpRobotFlirPtu.cpp`.

`double` values are taken as elements of a linearly ordered field `α`
(exact arithmetic); every definition is computable at `α := ℚ`.
-/

namespace Visp

/-! ## vpMbScanLine.h -/

/-- The enum `vpMbScanLineType` (lines 71-76). -/
inductive vpMbScanLineType where
  | START
  | END
  | POINT
  deriving DecidableEq, Repr

/-- The integer value of an enumerator: `START = 1, END = 0, POINT = 2`. -/
def vpMbScanLineType.toInt : vpMbScanLineType → Int
  | .START => 1
  | .END => 0
  | .POINT => 2

/-- A `vpColVector` as used for edge end points: the comparator reads the
entries `[0]`, `[1]` and `[2]`. -/
structure vpColVector3 (α : Type) where
  v0 : α
  v1 : α
  v2 : α
  deriving DecidableEq, Repr

/-- The entry `v[i]` for `i < 3`. -/
def vpColVector3.get {α : Type} (v : vpColVector3 α) : Fin 3 → α
  | 0 => v.v0
  | 1 => v.v1
  | 2 => v.v2

/-- The type `vpMbScanLineEdge`: `std::pair<vpColVector, vpColVector>` (line 79). -/
structure vpMbScanLineEdge (α : Type) where
  first : vpColVector3 α
  second : vpColVector3 α
  deriving DecidableEq, Repr

/-- The struct `vpMbScanLineSegment` (lines 82-91). -/
structure vpMbScanLineSegment (α : Type) where
  type : vpMbScanLineType
  edge : vpMbScanLineEdge α
  p : α
  P1 : α
  P2 : α
  Z1 : α
  Z2 : α
  ID : Int
  b_sample_Y : Bool

section Comparators

variable {α : Type} [LinearOrderedField α]

/-- The value `std::numeric_limits<double>::epsilon()`, that is `2^-52`. -/
def epsilon : α := 1 / 2 ^ 52

/-- The loop `for (i = 0; i < 3; ++i) if (u[i] < v[i]) return true; else if
(u[i] > v[i]) return false;` of the edge comparator, started at index `i`
with `n` iterations left: `some r` when the loop returns `r`, `none` when it
runs to its end. -/
def edgeLoop (u v : vpColVector3 α) : Nat → Nat → Option Bool
  | _, 0 => none
  | i, n + 1 =>
    if h : i < 3 then
      if u.get ⟨i, h⟩ < v.get ⟨i, h⟩ then some true
      else if u.get ⟨i, h⟩ > v.get ⟨i, h⟩ then some false
      else edgeLoop u v (i + 1) n
    else none

/-- The call operator of `vpMbScanLineEdgeComparator` (lines 96-109). -/
def vpMbScanLineEdgeComparator (l0 l1 : vpMbScanLineEdge α) : Bool :=
  match edgeLoop l0.first l1.first 0 3 with
  | some r => r
  | none =>
    match edgeLoop l0.second l1.second 0 3 with
    | some r => r
    | none => false

/-- The call operator of `vpMbScanLineSegmentComparator` on two segments
(lines 115-119). -/
def vpMbScanLineSegmentComparator (a b : vpMbScanLineSegment α) : Bool :=
  if |a.p - b.p| ≤ epsilon then decide (a.type.toInt < b.type.toInt) else decide (a.p < b.p)

/-- The order on marker types in the words of the specification:
`END < START < POINT`. -/
def typePrecedes : vpMbScanLineType → vpMbScanLineType → Prop
  | .END, .START => True
  | .END, .POINT => True
  | .START, .POINT => True
  | _, _ => False

/-- The six coordinates of an edge, first end point then second end point. -/
def edgeTuple (l : vpMbScanLineEdge α) : List α :=
  [l.first.v0, l.first.v1, l.first.v2, l.second.v0, l.second.v1, l.second.v2]

/-- The lexicographic order on the coordinates of two 3D points in the words
of the specification: x, then y, then z. -/
def pointLexLt (a b : vpColVector3 α) : Prop :=
  a.v0 < b.v0 ∨ (a.v0 = b.v0 ∧ (a.v1 < b.v1 ∨ (a.v1 = b.v1 ∧ a.v2 < b.v2)))

instance pointLexLt.instDecidable (a b : vpColVector3 α) : Decidable (pointLexLt a b) := by
  unfold pointLexLt
  exact inferInstance

/-- A `vpPoint`: its coordinates `X`, `Y`, `Z` in the camera frame. -/
structure vpPoint (α : Type) where
  X : α
  Y : α
  Z : α

/-- Modelled from the spec: the body of `vpMbScanLine::makeMbScanLineEdge` is in
`vpMbScanLine.cpp`, which is not among the sources (the header only declares
it, line 200). Section 4.1 of the specification: the edge is canonical, its
two end points being put in lexicographic order (x, then y, then z) whatever
the order of the arguments. -/
def makeMbScanLineEdge (a b : vpPoint α) : vpMbScanLineEdge α :=
  let _a : vpColVector3 α := ⟨a.X, a.Y, a.Z⟩
  let _b : vpColVector3 α := ⟨b.X, b.Y, b.Z⟩
  if pointLexLt _a _b then ⟨_a, _b⟩ else ⟨_b, _a⟩

/-- The private members of `vpMbScanLine` (lines 128-134). The camera
parameters are of a type `Cam` declared elsewhere; images are lists of rows and
the sample map is a list of keys with their sets of polygon ids. -/
structure vpMbScanLine (α Cam : Type) where
  w : Nat
  h : Nat
  K : Cam
  maskBorder : Nat
  mask : List (List Nat)
  primitive_ids : List (List Int)
  visibility_samples : List (vpMbScanLineEdge α × List Int)
  depthTreshold : α

/-- The accessor `getDepthTreshold()` (line 155). -/
def vpMbScanLine.getDepthTreshold {Cam : Type} (s : vpMbScanLine α Cam) : α :=
  s.depthTreshold

/-- The accessor `getMaskBorder()` (line 156). -/
def vpMbScanLine.getMaskBorder {Cam : Type} (s : vpMbScanLine α Cam) : Nat :=
  s.maskBorder

/-- The method `setDepthTreshold(treshold)` (line 170): a plain assignment. -/
def vpMbScanLine.setDepthTreshold {Cam : Type} (s : vpMbScanLine α Cam) (treshold : α) :
    vpMbScanLine α Cam :=
  { s with depthTreshold := treshold }

/-- The method `setMaskBorder(mb)` (line 171). -/
def vpMbScanLine.setMaskBorder {Cam : Type} (s : vpMbScanLine α Cam) (mb : Nat) :
    vpMbScanLine α Cam :=
  { s with maskBorder := mb }

end Comparators

/-! ## vpRobotFlirPtu.cpp -/

/-- The control frames of `vpRobot::vpControlFrameType` that the source names. -/
inductive vpControlFrameType where
  | REFERENCE_FRAME
  | JOINT_STATE
  | END_EFFECTOR_FRAME
  | TOOL_FRAME
  | MIXT_FRAME
  deriving DecidableEq, Repr

/-- The robot states of `vpRobot::vpRobotStateType`: the three the source names
and the one its `default:` branch is left with. -/
inductive vpRobotStateType where
  | STATE_STOP
  | STATE_VELOCITY_CONTROL
  | STATE_POSITION_CONTROL
  | STATE_ACCELERATION_CONTROL
  deriving DecidableEq, Repr

/-- The error codes the source throws: `vpException::fatalError`,
`vpException::dimensionError` and `vpRobotException::wrongStateError`. -/
inductive vpErrorCode where
  | fatalError
  | dimensionError
  | wrongStateError
  deriving DecidableEq, Repr

/-- A thrown exception: its code and its message (the format string of the
source, arguments not substituted). -/
structure vpException where
  code : vpErrorCode
  msg : String
  deriving DecidableEq, Repr

/-- The opcodes of the PTU SDK that the modelled functions send. -/
inductive cpiOp where
  | OP_PAN_DESIRED_SPEED_SET
  | OP_TILT_DESIRED_SPEED_SET
  | OP_PAN_DESIRED_POS_SET
  | OP_TILT_DESIRED_POS_SET
  | OP_PAN_CURRENT_POS_GET
  | OP_TILT_CURRENT_POS_GET
  deriving DecidableEq, Repr

/-- One call made to the SDK: `cpi_ptcmd` or `cpi_block_until`, the opcode and
its integer argument; `cerclose` when the serial link is closed. -/
inductive cpiCall where
  | ptcmd (op : cpiOp) (arg : Int)
  | block_until (op : cpiOp) (arg : Int)
  | cerclose
  deriving DecidableEq, Repr

/-- The SDK as seen by the source: for each call, whether it returns a
non-zero status (`true` is failure). -/
structure cpiDevice where
  cpi_ptcmd : cpiOp → Int → Bool
  cpi_block_until : cpiOp → Int → Bool

/-- The members of `vpRobotFlirPtu` and of its base `vpRobot` that the modelled
functions read or write. `m_cer` is whether the pointer is non-null; the
2-element vectors are functions on `Fin 2`; `sent` is the trace of the calls
made to the SDK. -/
structure vpRobotFlirPtu (α : Type) where
  stateRobot : vpRobotStateType
  maxTranslationVelocity : α
  maxRotationVelocity : α
  nDof : Int
  m_cer : Bool
  m_pos_max : Fin 2 → α
  m_pos_min : Fin 2 → α
  m_vel_max_tics : Fin 2 → Int
  m_res : Fin 2 → α
  m_connected : Bool
  m_njoints : Int
  m_positioning_velocity : α
  sent : List cpiCall

/-- What a call leaves behind: the exception thrown, if any, and the robot. -/
structure Outcome (α : Type) where
  err : Option vpException
  robot : vpRobotFlirPtu α

section Robot

variable {α : Type} [LinearOrderedField α] [FloorRing α]

/-- The conversion `static_cast<int>(x)` of a `double`: truncation toward zero
(values taken exactly, the range of `int` not modelled). -/
def truncToInt (x : α) : Int :=
  if 0 ≤ x then ⌊x⌋ else ⌈x⌉

/-- The entry `v[i]` of a `vpColVector` of any size, held as a list; the source
reads it without a bounds check, here an entry past the end reads as zero. -/
def colGet (v : List α) (i : Nat) : α :=
  v.getD i 0

/-- The accessor `vpRobot::getRobotState()`. -/
def vpRobotFlirPtu.getRobotState (r : vpRobotFlirPtu α) : vpRobotStateType :=
  r.stateRobot

/-- The method `init()` (lines 60-70); the two defaults are constants of the
base class. -/
def vpRobotFlirPtu.init (maxRotationVelocityDefault maxTranslationVelocityDefault : α)
    (r : vpRobotFlirPtu α) : vpRobotFlirPtu α :=
  { r with
    maxRotationVelocity := maxRotationVelocityDefault
    maxTranslationVelocity := maxTranslationVelocityDefault
    nDof := 2 }

/-- The default constructor (lines 75-81): not connected, two joints,
positioning velocity 20, then `init()`. -/
def vpRobotFlirPtu.new (maxRotationVelocityDefault maxTranslationVelocityDefault : α) :
    vpRobotFlirPtu α :=
  vpRobotFlirPtu.init maxRotationVelocityDefault maxTranslationVelocityDefault
    { stateRobot := .STATE_STOP
      maxTranslationVelocity := maxTranslationVelocityDefault
      maxRotationVelocity := maxRotationVelocityDefault
      nDof := 0
      m_cer := false
      m_pos_max := fun _ => 0
      m_pos_min := fun _ => 0
      m_vel_max_tics := fun _ => 0
      m_res := fun _ => 0
      m_connected := false
      m_njoints := 2
      m_positioning_velocity := 20
      sent := [] }

/-- The method `disconnect()` (lines 466-473). -/
def vpRobotFlirPtu.disconnect (r : vpRobotFlirPtu α) : vpRobotFlirPtu α :=
  if r.m_cer then { r with m_connected := false, sent := r.sent ++ [cpiCall.cerclose] } else r

/-- The method `setPositioningVelocity(velocity)` (lines 558-561). -/
def vpRobotFlirPtu.setPositioningVelocity (r : vpRobotFlirPtu α) (velocity : α) :
    vpRobotFlirPtu α :=
  { r with m_positioning_velocity := velocity }

/-- A call `cpi_ptcmd(m_cer, &m_status, op, arg)`: whether it failed, and the
robot with the call added to its trace. -/
def vpRobotFlirPtu.ptcmd (dev : cpiDevice) (r : vpRobotFlirPtu α) (op : cpiOp) (arg : Int) :
    Bool × vpRobotFlirPtu α :=
  (dev.cpi_ptcmd op arg, { r with sent := r.sent ++ [cpiCall.ptcmd op arg] })

/-- A call `cpi_block_until(m_cer, NULL, NULL, op, arg)`. -/
def vpRobotFlirPtu.blockUntil (dev : cpiDevice) (r : vpRobotFlirPtu α) (op : cpiOp) (arg : Int) :
    Bool × vpRobotFlirPtu α :=
  (dev.cpi_block_until op arg, { r with sent := r.sent ++ [cpiCall.block_until op arg] })

/-- The condition `a || b` on two SDK calls: the second call is made only when
the first returned zero. -/
def orElseCall (r : vpRobotFlirPtu α)
    (a b : vpRobotFlirPtu α → Bool × vpRobotFlirPtu α) : Bool × vpRobotFlirPtu α :=
  let ra := a r
  if ra.1 then ra else b ra.2

/-- The value `vel[i]` of `setJointVelocity` (line 204):
`static_cast<int>(vpMath::deg(qdot[i]) / m_res[i])`. -/
def jointVelTics (deg : α → α) (r : vpRobotFlirPtu α) (qdot : List α) (i : Fin 2) : Int :=
  truncToInt (deg (colGet qdot i.val) / r.m_res i)

/-- The loop of `setJointVelocity` (lines 203-210), started at joint `i` with
`n` iterations left: the first joint whose test
`std::fabs(vel[i]) > m_vel_max_tics[i]` holds, if any. -/
def jointVelLoop (deg : α → α) (r : vpRobotFlirPtu α) (qdot : List α) : Nat → Nat → Option (Fin 2)
  | _, 0 => none
  | i, n + 1 =>
    if h : i < 2 then
      if |jointVelTics deg r qdot ⟨i, h⟩| > r.m_vel_max_tics ⟨i, h⟩ then some ⟨i, h⟩
      else jointVelLoop deg r qdot (i + 1) n
    else none

/-- The method `setJointVelocity(qdot)` (lines 194-216); `deg` is
`vpMath::deg`. -/
def vpRobotFlirPtu.setJointVelocity (dev : cpiDevice) (deg : α → α) (r : vpRobotFlirPtu α)
    (qdot : List α) : Outcome α :=
  if !r.m_connected then
    ⟨some ⟨.fatalError, "FLIR PTU is not connected."⟩, r.disconnect⟩
  else
    match jointVelLoop deg r qdot 0 2 with
    | some _ =>
      ⟨some ⟨.fatalError, "Cannot set joint %d velocity %f (deg/s). Out of limits [-%f, %f]."⟩,
        r.disconnect⟩
    | none =>
      let res := orElseCall r
        (fun s => s.ptcmd dev .OP_PAN_DESIRED_SPEED_SET (jointVelTics deg r qdot 0))
        (fun s => s.ptcmd dev .OP_TILT_DESIRED_SPEED_SET (jointVelTics deg r qdot 1))
      if res.1 then ⟨some ⟨.fatalError, "Unable to set velocity."⟩, res.2⟩
      else ⟨none, res.2⟩

/-- The method `setCartVelocity(frame, v)` (lines 132-188): after the size
test it computes the local `v_e` and prints that it is not implemented;
nothing is sent. -/
def vpRobotFlirPtu.setCartVelocity (r : vpRobotFlirPtu α) (_frame : vpControlFrameType)
    (v : List α) : Outcome α :=
  if v.length ≠ 6 then
    ⟨some ⟨.fatalError,
      "Cannot send a velocity-skew vector in tool frame that is not 6-dim (%d)"⟩, r⟩
  else ⟨none, r⟩

/-- The method `setVelocity(frame, vel)` (lines 225-275);
`saturateVelocities` is `vpRobot::saturateVelocities(vel, vel_max, true)`, called
on two vectors of the same size. -/
def vpRobotFlirPtu.setVelocity (dev : cpiDevice) (deg : α → α)
    (saturateVelocities : List α → List α → List α)
    (r : vpRobotFlirPtu α) (frame : vpControlFrameType) (vel : List α) : Outcome α :=
  if vpRobotStateType.STATE_VELOCITY_CONTROL ≠ r.getRobotState then
    ⟨some ⟨.wrongStateError,
      "Cannot send a velocity to the robot. Call setRobotState(vpRobot::STATE_VELOCITY_CONTROL) once before entering your control loop."⟩,
      r⟩
  else
    match frame with
    | .JOINT_STATE =>
      if vel.length ≠ (r.nDof % 2 ^ 64).toNat then
        ⟨some ⟨.dimensionError,
          "Cannot apply a joint velocity that is not a %d-dim vector (%d)"⟩, r⟩
      else
        let vel_max := List.replicate vel.length r.maxRotationVelocity
        let vel_sat := saturateVelocities vel vel_max
        r.setJointVelocity dev deg vel_sat
    | _ =>
      if vel.length ≠ 6 then
        ⟨some ⟨.dimensionError,
          "Cannot apply a Cartesian velocity that is not a 6-dim vector (%d)"⟩, r⟩
      else
        let vel_max := List.replicate 3 r.maxTranslationVelocity ++
          List.replicate 3 r.maxRotationVelocity
        let vel_sat := saturateVelocities vel vel_max
        r.setCartVelocity frame vel_sat

/-- The value `pos[i]` of `setPosition` (line 360):
`static_cast<int>(vpMath::deg(q[i] / m_res[i]))`. -/
def jointPosTics (deg : α → α) (r : vpRobotFlirPtu α) (q : List α) (i : Fin 2) : Int :=
  truncToInt (deg (colGet q i.val / r.m_res i))

/-- The loop of `setPosition` (lines 353-361), started at joint `i` with `n`
iterations left: the first joint whose position is out of its limits, if any. -/
def jointPosLoop (r : vpRobotFlirPtu α) (q : List α) : Nat → Nat → Option (Fin 2)
  | _, 0 => none
  | i, n + 1 =>
    if h : i < 2 then
      if colGet q i < r.m_pos_min ⟨i, h⟩ ∨ colGet q i > r.m_pos_max ⟨i, h⟩ then some ⟨i, h⟩
      else jointPosLoop r q (i + 1) n
    else none

/-- The method `setPosition(frame, q)` (lines 328-380). -/
def vpRobotFlirPtu.setPosition (dev : cpiDevice) (deg : α → α) (r : vpRobotFlirPtu α)
    (frame : vpControlFrameType) (q : List α) : Outcome α :=
  if frame ≠ .JOINT_STATE then ⟨none, r⟩
  else if q.length ≠ 2 then
    ⟨some ⟨.fatalError, "FLIR PTU has only %d joints. Cannot set a position that is %d-dim."⟩,
      r.disconnect⟩
  else if !r.m_connected then
    ⟨some ⟨.fatalError, "FLIR PTU is not connected."⟩, r.disconnect⟩
  else
    let vmin : α := 1 / 100
    let vmax : α := 100
    if r.m_positioning_velocity < vmin ∨ r.m_positioning_velocity > vmax then
      ⟨some ⟨.fatalError, "FLIR PTU Positioning velocity %f is not in range [%f, %f]"⟩,
        r.disconnect⟩
    else
      match jointPosLoop r q 0 2 with
      | some _ =>
        ⟨some ⟨.fatalError, "Cannot set joint %d position %f (deg). Out of limits [%f, %f]."⟩,
          r.disconnect⟩
      | none =>
        let speed := orElseCall r
          (fun s => s.ptcmd dev .OP_PAN_DESIRED_SPEED_SET
            (truncToInt ((r.m_vel_max_tics 0 : α) * r.m_positioning_velocity / 100)))
          (fun s => s.ptcmd dev .OP_TILT_DESIRED_SPEED_SET
            (truncToInt ((r.m_vel_max_tics 1 : α) * r.m_positioning_velocity / 100)))
        if speed.1 then
          ⟨some ⟨.fatalError, "Setting FLIR pan/tilt positioning velocity failed"⟩,
            speed.2.disconnect⟩
        else
          let go := orElseCall speed.2
            (fun s => s.ptcmd dev .OP_PAN_DESIRED_POS_SET (jointPosTics deg r q 0))
            (fun s => s.ptcmd dev .OP_TILT_DESIRED_POS_SET (jointPosTics deg r q 1))
          if go.1 then
            ⟨some ⟨.fatalError, "FLIR PTU failed to go to position %d, %d (deg)."⟩,
              go.2.disconnect⟩
          else
            let wait := orElseCall go.2
              (fun s => s.blockUntil dev .OP_PAN_CURRENT_POS_GET (jointPosTics deg r q 0))
              (fun s => s.blockUntil dev .OP_TILT_CURRENT_POS_GET (jointPosTics deg r q 1))
            if wait.1 then
              ⟨some ⟨.fatalError,
                "FLIR PTU failed to wait until position %d, %d reached (deg)"⟩,
                wait.2.disconnect⟩
            else ⟨none, wait.2⟩

/-- The method `getVelMax()` (lines 539-550); `rad` is `vpMath::rad`. The
value is the 2-dim vector returned, or the exception thrown. -/
def vpRobotFlirPtu.getVelMax (rad : α → α) (r : vpRobotFlirPtu α) :
    Except vpException (List α) × vpRobotFlirPtu α :=
  if !r.m_connected then
    (Except.error ⟨.fatalError, "FLIR PTU is not connected."⟩, r.disconnect)
  else
    (Except.ok (List.ofFn fun i : Fin 2 => rad (r.m_res i * (r.m_vel_max_tics i : α))), r)

/-- The error of `setPosition` on a positioning velocity out of its range. -/
def positioningVelocityError : vpException :=
  ⟨.fatalError, "FLIR PTU Positioning velocity %f is not in range [%f, %f]"⟩

/-- The error of `setJointVelocity` on a velocity out of its limits. -/
def jointVelocityLimitError : vpException :=
  ⟨.fatalError, "Cannot set joint %d velocity %f (deg/s). Out of limits [-%f, %f]."⟩

end Robot

section Closeness

variable {α : Type} [LinearOrderedField α]

/-- Two segments whose positions are equal within epsilon. -/
def nearPos (a b : vpMbScanLineSegment α) : Prop :=
  |a.p - b.p| ≤ epsilon

end Closeness

/-! ## Concrete inputs -/

/-- A segment at position `p` of type `t`, its other fields zero. -/
def markerAt (t : vpMbScanLineType) (p : ℚ) : vpMbScanLineSegment ℚ :=
  { type := t, edge := ⟨⟨0, 0, 0⟩, ⟨0, 0, 0⟩⟩, p := p, P1 := 0, P2 := 0, Z1 := 0, Z2 := 0,
    ID := 0, b_sample_Y := false }

/-- An engine whose depth threshold is `1`. -/
def engineOne : vpMbScanLine ℚ Unit :=
  { w := 4, h := 4, K := (), maskBorder := 0, mask := [], primitive_ids := [],
    visibility_samples := [], depthTreshold := 1 }

/-- A device on which every call succeeds. -/
def okDevice : cpiDevice :=
  { cpi_ptcmd := fun _ _ => false, cpi_block_until := fun _ _ => false }

/-- A connected robot in state `st`: both joints with resolution `1` deg/tick,
speed limit `10` ticks/s and position limits `-1` and `1`; positioning velocity
`20`, nothing sent yet. -/
def ptuRobot {α : Type} [LinearOrderedField α] (st : vpRobotStateType) : vpRobotFlirPtu α :=
  { stateRobot := st
    maxTranslationVelocity := 1
    maxRotationVelocity := 1
    nDof := 2
    m_cer := true
    m_pos_max := fun _ => 1
    m_pos_min := fun _ => -1
    m_vel_max_tics := fun _ => 10
    m_res := fun _ => 1
    m_connected := true
    m_njoints := 2
    m_positioning_velocity := 20
    sent := [] }

/-! ## Properties of the scan-line comparators -/

section ComparatorProofs

variable {α : Type} [LinearOrderedField α]

theorem epsilon_pos : (0 : α) < epsilon := by
  unfold epsilon
  positivity

theorem typePrecedes_iff_toInt_lt (t u : vpMbScanLineType) :
    typePrecedes t u ↔ t.toInt < u.toInt := by
  cases t <;> cases u <;> simp [typePrecedes, vpMbScanLineType.toInt]

theorem segmentComparator_near (a b : vpMbScanLineSegment α) (h : |a.p - b.p| ≤ epsilon) :
    vpMbScanLineSegmentComparator a b = decide (a.type.toInt < b.type.toInt) := by
  simp [vpMbScanLineSegmentComparator, h]

theorem segmentComparator_far (a b : vpMbScanLineSegment α) (h : ¬ |a.p - b.p| ≤ epsilon) :
    vpMbScanLineSegmentComparator a b = decide (a.p < b.p) := by
  simp [vpMbScanLineSegmentComparator, h]

/-- C1: the segment comparator is true exactly when the positions differ by
more than epsilon and `a.p < b.p`, or are within epsilon and the type of `a`
precedes the type of `b` in `END < START < POINT`; an `END` within epsilon of a
`START` is ordered before it and not after it. -/
theorem segmentComparator_spec (a b : vpMbScanLineSegment α) :
    (vpMbScanLineSegmentComparator a b = true ↔
      (|a.p - b.p| > epsilon ∧ a.p < b.p) ∨
      (|a.p - b.p| ≤ epsilon ∧ typePrecedes a.type b.type)) ∧
    (a.type = vpMbScanLineType.END → b.type = vpMbScanLineType.START →
      |a.p - b.p| ≤ epsilon →
      vpMbScanLineSegmentComparator a b = true ∧
      vpMbScanLineSegmentComparator b a = false) := by
  refine ⟨?_, ?_⟩
  · by_cases h : |a.p - b.p| ≤ epsilon
    · rw [segmentComparator_near a b h, typePrecedes_iff_toInt_lt]
      simp [h]
    · rw [segmentComparator_far a b h]
      have h' : epsilon < |a.p - b.p| := lt_of_not_ge h
      simp [h, h']
  · intro ha hb h
    have h' : |b.p - a.p| ≤ epsilon := by rwa [abs_sub_comm]
    rw [segmentComparator_near a b h, segmentComparator_near b a h', ha, hb]
    simp [vpMbScanLineType.toInt]

end ComparatorProofs

/-- C1, witness: an `END` and a `START` both at position `5`. -/
theorem segmentComparator_spec_witness :
    (markerAt .END 5).type = vpMbScanLineType.END ∧
    (markerAt .START 5).type = vpMbScanLineType.START ∧
    |(markerAt .END 5).p - (markerAt .START 5).p| ≤ epsilon ∧
    vpMbScanLineSegmentComparator (markerAt .END 5) (markerAt .START 5) = true ∧
    vpMbScanLineSegmentComparator (markerAt .START 5) (markerAt .END 5) = false :=
  ⟨rfl, rfl, by norm_num [markerAt, epsilon],
    (segmentComparator_spec (markerAt .END 5) (markerAt .START 5)).2 rfl rfl
      (by norm_num [markerAt, epsilon])⟩

/-- C2, counterexample: an `END` at `2 * epsilon`, a `START` at `epsilon` and a
`POINT` at `0`: the first is ordered before the second and the second before
the third, the first is not ordered before the third. -/
theorem segmentComparator_not_transitive :
    vpMbScanLineSegmentComparator (markerAt .END (2 * epsilon)) (markerAt .START epsilon) = true ∧
    vpMbScanLineSegmentComparator (markerAt .START epsilon) (markerAt .POINT 0) = true ∧
    vpMbScanLineSegmentComparator (markerAt .END (2 * epsilon)) (markerAt .POINT 0) = false := by
  refine ⟨?_, ?_, ?_⟩ <;>
    norm_num [vpMbScanLineSegmentComparator, markerAt, epsilon, vpMbScanLineType.toInt, abs_of_pos]

section SegmentOrderProofs

variable {α : Type} [LinearOrderedField α]

theorem segmentComparator_far_lt (a b : vpMbScanLineSegment α) (h : ¬ nearPos a b)
    (hc : vpMbScanLineSegmentComparator a b = true) : a.p + epsilon < b.p := by
  unfold nearPos at h
  rw [segmentComparator_far a b h] at hc
  have hlt : a.p < b.p := by simpa using hc
  have h' : epsilon < |a.p - b.p| := lt_of_not_ge h
  rw [abs_sub_comm, abs_of_pos (by linarith)] at h'
  linarith

/-- C2, amended: the segment comparator is irreflexive, and it is transitive on
three segments among which being within epsilon is transitive (whenever two of
the three pairs of positions are within epsilon, so is the third). -/
theorem segmentComparator_irrefl_trans (a b c : vpMbScanLineSegment α) :
    vpMbScanLineSegmentComparator a a = false ∧
    ((nearPos a b → nearPos b c → nearPos a c) →
     (nearPos a b → nearPos a c → nearPos b c) →
     (nearPos a c → nearPos b c → nearPos a b) →
     vpMbScanLineSegmentComparator a b = true →
     vpMbScanLineSegmentComparator b c = true →
     vpMbScanLineSegmentComparator a c = true) := by
  have heps : (0 : α) < epsilon := epsilon_pos
  refine ⟨?_, ?_⟩
  · have h : |a.p - a.p| ≤ (epsilon : α) := by simp [heps.le]
    rw [segmentComparator_near a a h]
    simp
  · intro h1 h2 h3 hab hbc
    by_cases nab : nearPos a b <;> by_cases nbc : nearPos b c
    · have nac := h1 nab nbc
      rw [segmentComparator_near a b nab] at hab
      rw [segmentComparator_near b c nbc] at hbc
      rw [segmentComparator_near a c nac]
      simp only [decide_eq_true_eq] at hab hbc ⊢
      exact lt_trans hab hbc
    · have hlt := segmentComparator_far_lt b c nbc hbc
      have nac : ¬ nearPos a c := fun n => nbc (h2 nab n)
      rw [segmentComparator_far a c nac]
      have hn : |a.p - b.p| ≤ epsilon := nab
      have := (abs_le.mp hn).2
      simp only [decide_eq_true_eq]
      linarith
    · have hlt := segmentComparator_far_lt a b nab hab
      have nac : ¬ nearPos a c := fun n => nab (h3 n nbc)
      rw [segmentComparator_far a c nac]
      have hn : |b.p - c.p| ≤ epsilon := nbc
      have := (abs_le.mp hn).2
      simp only [decide_eq_true_eq]
      linarith
    · have hlt1 := segmentComparator_far_lt a b nab hab
      have hlt2 := segmentComparator_far_lt b c nbc hbc
      have nac : ¬ nearPos a c := by
        intro n
        have hn : |a.p - c.p| ≤ epsilon := n
        have := (abs_le.mp hn).1
        linarith
      rw [segmentComparator_far a c nac]
      simp only [decide_eq_true_eq]
      linarith

end SegmentOrderProofs

/-- C2, witness: an `END`, a `START` and a `POINT` all at position `1`. -/
theorem segmentComparator_irrefl_trans_witness :
    nearPos (markerAt .END 1) (markerAt .START 1) ∧
    nearPos (markerAt .START 1) (markerAt .POINT 1) ∧
    nearPos (markerAt .END 1) (markerAt .POINT 1) ∧
    vpMbScanLineSegmentComparator (markerAt .END 1) (markerAt .START 1) = true ∧
    vpMbScanLineSegmentComparator (markerAt .START 1) (markerAt .POINT 1) = true ∧
    vpMbScanLineSegmentComparator (markerAt .END 1) (markerAt .POINT 1) = true :=
  have hab : nearPos (markerAt .END 1) (markerAt .START 1) := by
    norm_num [nearPos, markerAt, epsilon]
  have hbc : nearPos (markerAt .START 1) (markerAt .POINT 1) := by
    norm_num [nearPos, markerAt, epsilon]
  have hac : nearPos (markerAt .END 1) (markerAt .POINT 1) := by
    norm_num [nearPos, markerAt, epsilon]
  have cab : vpMbScanLineSegmentComparator (markerAt .END 1) (markerAt .START 1) = true := by
    norm_num [vpMbScanLineSegmentComparator, markerAt, epsilon, vpMbScanLineType.toInt]
  have cbc : vpMbScanLineSegmentComparator (markerAt .START 1) (markerAt .POINT 1) = true := by
    norm_num [vpMbScanLineSegmentComparator, markerAt, epsilon, vpMbScanLineType.toInt]
  ⟨hab, hbc, hac, cab, cbc,
    (segmentComparator_irrefl_trans (markerAt .END 1) (markerAt .START 1) (markerAt .POINT 1)).2
      (fun _ _ => hac) (fun _ _ => hbc) (fun _ _ => hab) cab cbc⟩

section EdgeProofs

variable {α : Type} [LinearOrderedField α]

theorem lex_cons_cons_iff (a b : α) (l₁ l₂ : List α) :
    List.Lex (· < ·) (a :: l₁) (b :: l₂) ↔ a < b ∨ (a = b ∧ List.Lex (· < ·) l₁ l₂) := by
  constructor
  · intro h
    cases h with
    | cons h => exact Or.inr ⟨rfl, h⟩
    | rel h => exact Or.inl h
  · rintro (h | ⟨rfl, h⟩)
    · exact List.Lex.rel h
    · exact List.Lex.cons h

theorem edgeLoop_eq (u v : vpColVector3 α) :
    edgeLoop u v 0 3 =
      if u.v0 < v.v0 then some true else if u.v0 > v.v0 then some false
      else if u.v1 < v.v1 then some true else if u.v1 > v.v1 then some false
      else if u.v2 < v.v2 then some true else if u.v2 > v.v2 then some false
      else none := by
  simp [edgeLoop, vpColVector3.get]

theorem edgeLoop_some_true_iff (u v : vpColVector3 α) :
    edgeLoop u v 0 3 = some true ↔ pointLexLt u v := by
  rw [edgeLoop_eq]
  unfold pointLexLt
  rcases lt_trichotomy u.v0 v.v0 with h0 | h0 | h0
  · simp [h0]
  · rcases lt_trichotomy u.v1 v.v1 with h1 | h1 | h1
    · simp [h0, h1]
    · rcases lt_trichotomy u.v2 v.v2 with h2 | h2 | h2
      · simp [h0, h1, h2]
      · simp [h0, h1, h2]
      · simp [h0, h1, h2, h2.le, not_lt_of_gt h2]
    · simp [h0, h1, h1.ne', not_lt_of_gt h1]
  · simp [h0, h0.ne', not_lt_of_gt h0]

theorem edgeLoop_none_iff (u v : vpColVector3 α) :
    edgeLoop u v 0 3 = none ↔ u = v := by
  rw [edgeLoop_eq]
  cases u with
  | mk u0 u1 u2 =>
  cases v with
  | mk w0 w1 w2 =>
  simp only [vpColVector3.mk.injEq]
  rcases lt_trichotomy u0 w0 with h0 | h0 | h0
  · simp [h0, h0.ne]
  · rcases lt_trichotomy u1 w1 with h1 | h1 | h1
    · simp [h0, h1, h1.ne]
    · rcases lt_trichotomy u2 w2 with h2 | h2 | h2
      · simp [h0, h1, h2, h2.ne]
      · simp [h0, h1, h2]
      · simp [h0, h1, h2, h2.ne', not_lt_of_gt h2]
    · simp [h0, h1, h1.ne', not_lt_of_gt h1]
  · simp [h0, h0.ne', not_lt_of_gt h0]

theorem pointLexLt_iff_lex (u v : vpColVector3 α) :
    pointLexLt u v ↔ List.Lex (· < ·) [u.v0, u.v1, u.v2] [v.v0, v.v1, v.v2] := by
  simp [pointLexLt, lex_cons_cons_iff]

theorem edgeComparator_iff (l0 l1 : vpMbScanLineEdge α) :
    vpMbScanLineEdgeComparator l0 l1 = true ↔
      pointLexLt l0.first l1.first ∨ (l0.first = l1.first ∧ pointLexLt l0.second l1.second) := by
  unfold vpMbScanLineEdgeComparator
  cases h : edgeLoop l0.first l1.first 0 3 with
  | some r =>
    have hne : ¬ l0.first = l1.first := by
      rw [← edgeLoop_none_iff, h]
      simp
    cases r with
    | true => simp [← edgeLoop_some_true_iff, h]
    | false => simp [← edgeLoop_some_true_iff, h, hne]
  | none =>
    have heq : l0.first = l1.first := (edgeLoop_none_iff _ _).mp h
    have hirr : ¬ pointLexLt l0.first l1.first := by
      rw [← edgeLoop_some_true_iff, h]
      simp
    have key : (pointLexLt l0.first l1.first ∨
        (l0.first = l1.first ∧ pointLexLt l0.second l1.second)) ↔
        edgeLoop l0.second l1.second 0 3 = some true := by
      rw [edgeLoop_some_true_iff]
      constructor
      · rintro (h' | ⟨_, h'⟩)
        · exact absurd h' hirr
        · exact h'
      · exact fun h' => Or.inr ⟨heq, h'⟩
    rw [key]
    cases h2 : edgeLoop l0.second l1.second 0 3 with
    | some r => cases r <;> simp
    | none => simp

theorem edgeComparator_iff_lex (l0 l1 : vpMbScanLineEdge α) :
    vpMbScanLineEdgeComparator l0 l1 = true ↔
      List.Lex (· < ·) (edgeTuple l0) (edgeTuple l1) := by
  rw [edgeComparator_iff]
  cases l0 with
  | mk f0 s0 =>
  cases l1 with
  | mk f1 s1 =>
  cases f0; cases s0; cases f1; cases s1
  simp only [edgeTuple, pointLexLt, lex_cons_cons_iff, List.Lex.not_nil_right, and_false,
    or_false, vpColVector3.mk.injEq]
  tauto

theorem edgeComparator_iff_lt (l0 l1 : vpMbScanLineEdge α) :
    vpMbScanLineEdgeComparator l0 l1 = true ↔ edgeTuple l0 < edgeTuple l1 :=
  edgeComparator_iff_lex l0 l1

/-- C3: the edge comparator is true exactly when the six coordinates of `l0`
(first end point x, y, z, then second end point x, y, z) are strictly smaller
than those of `l1` in the lexicographic order, compared exactly. -/
theorem edgeComparator_lexicographic (l0 l1 : vpMbScanLineEdge α) :
    vpMbScanLineEdgeComparator l0 l1 = true ↔
      List.Lex (· < ·)
        [l0.first.v0, l0.first.v1, l0.first.v2, l0.second.v0, l0.second.v1, l0.second.v2]
        [l1.first.v0, l1.first.v1, l1.first.v2, l1.second.v0, l1.second.v1, l1.second.v2] :=
  edgeComparator_iff_lex l0 l1

/-- C4: the edge comparator is irreflexive and transitive, and of
`comp l0 l1`, `comp l1 l0` and "the six coordinates are equal" exactly one
holds. -/
theorem edgeComparator_strict_total (l0 l1 l2 : vpMbScanLineEdge α) :
    vpMbScanLineEdgeComparator l0 l0 = false ∧
    (vpMbScanLineEdgeComparator l0 l1 = true → vpMbScanLineEdgeComparator l1 l2 = true →
      vpMbScanLineEdgeComparator l0 l2 = true) ∧
    ((vpMbScanLineEdgeComparator l0 l1 = true ∧ vpMbScanLineEdgeComparator l1 l0 = false ∧
        edgeTuple l0 ≠ edgeTuple l1) ∨
     (vpMbScanLineEdgeComparator l0 l1 = false ∧ vpMbScanLineEdgeComparator l1 l0 = true ∧
        edgeTuple l0 ≠ edgeTuple l1) ∨
     (vpMbScanLineEdgeComparator l0 l1 = false ∧ vpMbScanLineEdgeComparator l1 l0 = false ∧
        edgeTuple l0 = edgeTuple l1)) := by
  have hf : ∀ a b : vpMbScanLineEdge α,
      vpMbScanLineEdgeComparator a b = false ↔ ¬ edgeTuple a < edgeTuple b := by
    intro a b
    rw [← edgeComparator_iff_lt]
    simp
  refine ⟨?_, ?_, ?_⟩
  · rw [hf]
    exact lt_irrefl _
  · rw [edgeComparator_iff_lt, edgeComparator_iff_lt, edgeComparator_iff_lt]
    exact fun h1 h2 => lt_trans h1 h2
  · rw [hf, hf, edgeComparator_iff_lt, edgeComparator_iff_lt]
    rcases lt_trichotomy (edgeTuple l0) (edgeTuple l1) with h | h | h
    · exact Or.inl ⟨h, not_lt_of_gt h, h.ne⟩
    · exact Or.inr (Or.inr ⟨h ▸ lt_irrefl _, h ▸ lt_irrefl _, h⟩)
    · exact Or.inr (Or.inl ⟨not_lt_of_gt h, h, h.ne'⟩)

theorem pointLexLt_asymm (u v : vpColVector3 α) (h : pointLexLt u v) : ¬ pointLexLt v u := by
  unfold pointLexLt at *
  rcases h with h | ⟨h0, h | ⟨h1, h2⟩⟩
  · rintro (h' | ⟨h0', _⟩)
    · exact lt_asymm h h'
    · exact h.ne' h0'
  · rintro (h' | ⟨_, h' | ⟨h1', _⟩⟩)
    · exact h'.ne' h0
    · exact lt_asymm h h'
    · exact h.ne' h1'
  · rintro (h' | ⟨_, h' | ⟨_, h2'⟩⟩)
    · exact h'.ne' h0
    · exact h'.ne' h1
    · exact lt_asymm h2 h2'

theorem pointLexLt_total (u v : vpColVector3 α) (h1 : ¬ pointLexLt u v) (h2 : ¬ pointLexLt v u) :
    u = v := by
  rw [← edgeLoop_some_true_iff] at h1 h2
  rw [← edgeLoop_none_iff]
  rw [edgeLoop_eq] at *
  split_ifs at * <;> simp_all

theorem makeMbScanLineEdge_comm (a b : vpPoint α) :
    makeMbScanLineEdge a b = makeMbScanLineEdge b a := by
  unfold makeMbScanLineEdge
  by_cases h : pointLexLt (⟨a.X, a.Y, a.Z⟩ : vpColVector3 α) ⟨b.X, b.Y, b.Z⟩
  · have h' := pointLexLt_asymm _ _ h
    simp [h, h']
  · by_cases h' : pointLexLt (⟨b.X, b.Y, b.Z⟩ : vpColVector3 α) ⟨a.X, a.Y, a.Z⟩
    · simp [h, h']
    · have := pointLexLt_total _ _ h h'
      simp [h, h', this]

/-- C5: the edges made from `(a, b)` and from `(b, a)` are the same map key:
neither precedes the other under the edge comparator. -/
theorem makeMbScanLineEdge_orientation (a b : vpPoint α) :
    vpMbScanLineEdgeComparator (makeMbScanLineEdge a b) (makeMbScanLineEdge b a) = false ∧
    vpMbScanLineEdgeComparator (makeMbScanLineEdge b a) (makeMbScanLineEdge a b) = false := by
  rw [makeMbScanLineEdge_comm a b]
  have h : vpMbScanLineEdgeComparator (makeMbScanLineEdge b a) (makeMbScanLineEdge b a) = false := by
    rw [← Bool.not_eq_true, edgeComparator_iff_lt]
    exact lt_irrefl _
  exact ⟨h, h⟩

end EdgeProofs

/-- C4, witness: three edges from the origin, to `(1, 0, 0)`, `(1, 1, 0)` and
`(1, 2, 0)`. -/
theorem edgeComparator_strict_total_witness :
    vpMbScanLineEdgeComparator (⟨⟨0, 0, 0⟩, ⟨1, 0, 0⟩⟩ : vpMbScanLineEdge ℚ)
      ⟨⟨0, 0, 0⟩, ⟨1, 1, 0⟩⟩ = true ∧
    vpMbScanLineEdgeComparator (⟨⟨0, 0, 0⟩, ⟨1, 1, 0⟩⟩ : vpMbScanLineEdge ℚ)
      ⟨⟨0, 0, 0⟩, ⟨1, 2, 0⟩⟩ = true ∧
    vpMbScanLineEdgeComparator (⟨⟨0, 0, 0⟩, ⟨1, 0, 0⟩⟩ : vpMbScanLineEdge ℚ)
      ⟨⟨0, 0, 0⟩, ⟨1, 2, 0⟩⟩ = true :=
  have c01 : vpMbScanLineEdgeComparator (⟨⟨0, 0, 0⟩, ⟨1, 0, 0⟩⟩ : vpMbScanLineEdge ℚ)
      ⟨⟨0, 0, 0⟩, ⟨1, 1, 0⟩⟩ = true := by
    norm_num [vpMbScanLineEdgeComparator, edgeLoop, vpColVector3.get]
  have c12 : vpMbScanLineEdgeComparator (⟨⟨0, 0, 0⟩, ⟨1, 1, 0⟩⟩ : vpMbScanLineEdge ℚ)
      ⟨⟨0, 0, 0⟩, ⟨1, 2, 0⟩⟩ = true := by
    norm_num [vpMbScanLineEdgeComparator, edgeLoop, vpColVector3.get]
  ⟨c01, c12, (edgeComparator_strict_total (⟨⟨0, 0, 0⟩, ⟨1, 0, 0⟩⟩ : vpMbScanLineEdge ℚ)
    ⟨⟨0, 0, 0⟩, ⟨1, 1, 0⟩⟩ ⟨⟨0, 0, 0⟩, ⟨1, 2, 0⟩⟩).2.1 c01 c12⟩

/-- C6, amended: `setDepthTreshold(t)` stores any `t`, a negative one too:
afterwards `getDepthTreshold()` returns `t`, and the mask border is
unchanged. -/
theorem setDepthTreshold_stores {α Cam : Type} (s : vpMbScanLine α Cam) (t : α) :
    (s.setDepthTreshold t).getDepthTreshold = t ∧
    (s.setDepthTreshold t).getMaskBorder = s.getMaskBorder := by
  simp [vpMbScanLine.setDepthTreshold, vpMbScanLine.getDepthTreshold,
    vpMbScanLine.getMaskBorder]

/-- C6, counterexample: on an engine whose threshold is `1`,
`setDepthTreshold(-1)` is not rejected: `getDepthTreshold()` then returns `-1`,
not the threshold held before. -/
theorem setDepthTreshold_negative_accepted :
    (-1 : ℚ) < 0 ∧ engineOne.getDepthTreshold = 1 ∧
    (engineOne.setDepthTreshold (-1)).getDepthTreshold = -1 ∧
    (engineOne.setDepthTreshold (-1)).getDepthTreshold ≠ engineOne.getDepthTreshold := by
  refine ⟨by norm_num, rfl, rfl, ?_⟩
  norm_num [vpMbScanLine.setDepthTreshold, vpMbScanLine.getDepthTreshold, engineOne]

/-! ## Properties of the FLIR PTU command checks -/

section RobotProofs

variable {α : Type} [LinearOrderedField α] [FloorRing α]

theorem setJointVelocity_code (dev : cpiDevice) (deg : α → α) (r : vpRobotFlirPtu α)
    (qdot : List α) :
    (r.setJointVelocity dev deg qdot).err.map vpException.code ≠
      some vpErrorCode.dimensionError := by
  unfold vpRobotFlirPtu.setJointVelocity
  split
  · simp
  · split
    · simp
    · dsimp only
      split <;> simp

omit [LinearOrderedField α] [FloorRing α] in
theorem setCartVelocity_code (r : vpRobotFlirPtu α) (frame : vpControlFrameType)
    (v : List α) :
    (r.setCartVelocity frame v).err.map vpException.code ≠
      some vpErrorCode.dimensionError := by
  unfold vpRobotFlirPtu.setCartVelocity
  split <;> simp

/-- C8: when the robot state is not `STATE_VELOCITY_CONTROL`, `setVelocity`
throws a `wrongStateError` for every frame and every vector, and the robot,
with the trace of what was sent to the device, is left as it was. -/
theorem setVelocity_wrong_state (dev : cpiDevice) (deg : α → α)
    (saturateVelocities : List α → List α → List α) (r : vpRobotFlirPtu α)
    (frame : vpControlFrameType) (vel : List α)
    (hstate : r.getRobotState ≠ vpRobotStateType.STATE_VELOCITY_CONTROL) :
    (r.setVelocity dev deg saturateVelocities frame vel).err.map vpException.code =
      some vpErrorCode.wrongStateError ∧
    (r.setVelocity dev deg saturateVelocities frame vel).robot.sent = r.sent ∧
    (r.setVelocity dev deg saturateVelocities frame vel).robot = r := by
  unfold vpRobotFlirPtu.setVelocity
  rw [if_pos (Ne.symm hstate)]
  simp

/-- C9: in velocity-control state with `nDof = 2` (the value `init()` sets),
`setVelocity` throws a `dimensionError` in a Cartesian frame exactly when the
vector is not 6-dim and in `JOINT_STATE` exactly when it is not 2-dim; when it
does, nothing has been sent. -/
theorem setVelocity_dimension (dev : cpiDevice) (deg : α → α)
    (saturateVelocities : List α → List α → List α) (a b : α) (r0 r : vpRobotFlirPtu α)
    (frame : vpControlFrameType) (vel : List α)
    (hstate : r.getRobotState = vpRobotStateType.STATE_VELOCITY_CONTROL)
    (hdof : r.nDof = (r0.init a b).nDof) :
    (r0.init a b).nDof = 2 ∧
    (frame ≠ vpControlFrameType.JOINT_STATE →
      ((r.setVelocity dev deg saturateVelocities frame vel).err.map vpException.code =
        some vpErrorCode.dimensionError ↔ vel.length ≠ 6)) ∧
    (frame = vpControlFrameType.JOINT_STATE →
      ((r.setVelocity dev deg saturateVelocities frame vel).err.map vpException.code =
        some vpErrorCode.dimensionError ↔ vel.length ≠ 2)) ∧
    ((r.setVelocity dev deg saturateVelocities frame vel).err.map vpException.code =
        some vpErrorCode.dimensionError →
      (r.setVelocity dev deg saturateVelocities frame vel).robot.sent = r.sent) := by
  have hinit : (r0.init a b).nDof = 2 := rfl
  rw [hinit] at hdof
  have hcast : (r.nDof % 2 ^ 64).toNat = 2 := by
    rw [hdof]
    rfl
  have hst : ¬ (vpRobotStateType.STATE_VELOCITY_CONTROL ≠ r.getRobotState) := by
    rw [hstate]
    simp
  have hjoint : ∀ (h6 : vel.length = 2),
      r.setVelocity dev deg saturateVelocities vpControlFrameType.JOINT_STATE vel =
        r.setJointVelocity dev deg
          (saturateVelocities vel (List.replicate vel.length r.maxRotationVelocity)) := by
    intro h2
    unfold vpRobotFlirPtu.setVelocity
    rw [if_neg hst]
    dsimp only
    rw [if_neg (by rw [hcast]; exact not_not.mpr h2)]
  have hjoint' : vel.length ≠ 2 →
      r.setVelocity dev deg saturateVelocities vpControlFrameType.JOINT_STATE vel =
        ⟨some ⟨.dimensionError,
          "Cannot apply a joint velocity that is not a %d-dim vector (%d)"⟩, r⟩ := by
    intro h2
    unfold vpRobotFlirPtu.setVelocity
    rw [if_neg hst]
    dsimp only
    rw [if_pos (by rw [hcast]; exact h2)]
  have hcart : frame ≠ vpControlFrameType.JOINT_STATE → vel.length = 6 →
      r.setVelocity dev deg saturateVelocities frame vel =
        r.setCartVelocity frame
          (saturateVelocities vel (List.replicate 3 r.maxTranslationVelocity ++
            List.replicate 3 r.maxRotationVelocity)) := by
    intro hf h6
    unfold vpRobotFlirPtu.setVelocity
    cases frame <;> simp_all
  have hcart' : frame ≠ vpControlFrameType.JOINT_STATE → vel.length ≠ 6 →
      r.setVelocity dev deg saturateVelocities frame vel =
        ⟨some ⟨.dimensionError,
          "Cannot apply a Cartesian velocity that is not a 6-dim vector (%d)"⟩, r⟩ := by
    intro hf h6
    unfold vpRobotFlirPtu.setVelocity
    cases frame <;> simp_all
  refine ⟨hinit, ?_, ?_, ?_⟩
  · intro hf
    by_cases h6 : vel.length = 6
    · rw [hcart hf h6]
      exact ⟨fun h => absurd h (setCartVelocity_code _ _ _), fun h => absurd h6 h⟩
    · rw [hcart' hf h6]
      simp [h6]
  · intro hf
    subst hf
    by_cases h2 : vel.length = 2
    · rw [hjoint h2]
      exact ⟨fun h => absurd h (setJointVelocity_code _ _ _ _), fun h => absurd h2 h⟩
    · rw [hjoint' h2]
      simp [h2]
  · intro herr
    by_cases hf : frame = vpControlFrameType.JOINT_STATE
    · subst hf
      by_cases h2 : vel.length = 2
      · rw [hjoint h2] at herr
        exact absurd herr (setJointVelocity_code _ _ _ _)
      · rw [hjoint' h2]
    · by_cases h6 : vel.length = 6
      · rw [hcart hf h6] at herr
        exact absurd herr (setCartVelocity_code _ _ _)
      · rw [hcart' hf h6]

/-- The guard of `setPosition` (lines 345-349): for a connected robot and a
2-dim joint position, `setPosition(JOINT_STATE, q)` throws the
positioning-velocity error exactly when the velocity set with
`setPositioningVelocity` is below `0.01` or above `100`; the doc comment of
`setPositioningVelocity` (line 556) gives the range as `[0, 100]`. -/
theorem setPosition_velocity_range (dev : cpiDevice) (deg : α → α) (r : vpRobotFlirPtu α)
    (v : α) (q : List α) (hconn : r.m_connected = true) (hq : q.length = 2) :
    ((r.setPositioningVelocity v).setPosition dev deg vpControlFrameType.JOINT_STATE q).err =
      some positioningVelocityError ↔ v < 1 / 100 ∨ v > 100 := by
  unfold vpRobotFlirPtu.setPosition vpRobotFlirPtu.setPositioningVelocity
  simp only [ne_eq, not_true_eq_false, if_false, hq, hconn, Bool.not_true, Bool.false_eq_true]
  by_cases hv : v < 1 / 100 ∨ v > 100
  · simp only [hv, if_true, iff_true]
    rfl
  · simp only [hv, if_false, iff_false]
    split
    · simp [positioningVelocityError]
    · split
      · simp [positioningVelocityError]
      · split
        · simp [positioningVelocityError]
        · split <;> simp [positioningVelocityError]

end RobotProofs

section JointVelocityProofs

variable {α : Type} [LinearOrderedField α] [FloorRing α]

theorem abs_truncToInt_gt_iff (x : α) (n : Int) :
    |truncToInt x| > n ↔ (n : α) + 1 ≤ |x| := by
  unfold truncToInt
  by_cases hx : 0 ≤ x
  · rw [if_pos hx, abs_of_nonneg hx, abs_of_nonneg (Int.floor_nonneg.mpr hx)]
    rw [gt_iff_lt, ← Int.add_one_le_iff, Int.le_floor]
    push_cast
    rfl
  · rw [if_neg hx]
    have hx' : x < 0 := lt_of_not_ge hx
    have hc : ⌈x⌉ ≤ 0 := Int.ceil_le.mpr (by exact_mod_cast hx'.le)
    rw [abs_of_neg hx', abs_of_nonpos hc]
    rw [gt_iff_lt, ← Int.add_one_le_iff, le_neg, Int.ceil_le]
    push_cast
    constructor <;> intro h <;> linarith

theorem jointVelLoop_isSome_iff (deg : α → α) (r : vpRobotFlirPtu α) (qdot : List α) :
    (jointVelLoop deg r qdot 0 2).isSome = true ↔
      ∃ i : Fin 2, |jointVelTics deg r qdot i| > r.m_vel_max_tics i := by
  rw [Fin.exists_fin_two]
  simp only [jointVelLoop]
  by_cases h0 : |jointVelTics deg r qdot 0| > r.m_vel_max_tics 0
  · simp [h0]
  · by_cases h1 : |jointVelTics deg r qdot 1| > r.m_vel_max_tics 1
    · simp [h0, h1]
    · simp [h0, h1]

theorem setJointVelocity_limit_iff (dev : cpiDevice) (deg : α → α) (r : vpRobotFlirPtu α)
    (qdot : List α) (hconn : r.m_connected = true) :
    (r.setJointVelocity dev deg qdot).err = some jointVelocityLimitError ↔
      (jointVelLoop deg r qdot 0 2).isSome = true := by
  unfold vpRobotFlirPtu.setJointVelocity
  simp only [hconn, Bool.not_true, Bool.false_eq_true, if_false]
  cases h : jointVelLoop deg r qdot 0 2 with
  | some i => simp [jointVelocityLimitError]
  | none =>
    dsimp only
    split <;> simp [jointVelocityLimitError]

/-- C10, amended: for a connected robot with positive resolutions,
`setJointVelocity(qdot)` throws the out-of-limits error exactly when, for some
joint, the requested velocity in deg/s is outside the open interval
`(-(vmax_i + 1) * res_i, (vmax_i + 1) * res_i)`: the test is made on the number
of ticks after truncation toward zero. -/
theorem setJointVelocity_limits (dev : cpiDevice) (deg : α → α) (r : vpRobotFlirPtu α)
    (qdot : List α) (hconn : r.m_connected = true) (hres : ∀ i, 0 < r.m_res i)
    (_hlen : qdot.length = 2) :
    (r.setJointVelocity dev deg qdot).err = some jointVelocityLimitError ↔
      ∃ i : Fin 2,
        ¬ (-(((r.m_vel_max_tics i : α) + 1) * r.m_res i) < deg (colGet qdot i.val) ∧
           deg (colGet qdot i.val) < ((r.m_vel_max_tics i : α) + 1) * r.m_res i) := by
  rw [setJointVelocity_limit_iff dev deg r qdot hconn, jointVelLoop_isSome_iff]
  apply exists_congr
  intro i
  unfold jointVelTics
  rw [abs_truncToInt_gt_iff, ← abs_lt, not_lt, abs_div, abs_of_pos (hres i),
    le_div_iff₀ (hres i)]

end JointVelocityProofs

theorem floor_twentyone_halves : ⌊(21 / 2 : ℝ)⌋ = 10 := by
  rw [Int.floor_eq_iff]
  constructor <;> norm_num

theorem deg_of_seven_pi : (7 * Real.pi / 120 : ℝ) * 180 / Real.pi = 21 / 2 := by
  have hpi : Real.pi ≠ 0 := Real.pi_ne_zero
  field_simp
  ring

/-- C10, counterexample: with resolution `1` deg/tick and limit `10` ticks/s,
a request of `7 * pi / 120` rad/s, that is `10.5` deg/s, is outside
`[-10, 10]` and yet raises nothing: it is truncated to `10` ticks. -/
theorem setJointVelocity_truncated_accepted :
    (fun x : ℝ => x * 180 / Real.pi) (colGet [7 * Real.pi / 120, 0] 0) = 21 / 2 ∧
    ¬ (-((10 : ℝ) * 1) ≤ 21 / 2 ∧ (21 / 2 : ℝ) ≤ 10 * 1) ∧
    ((ptuRobot .STATE_VELOCITY_CONTROL : vpRobotFlirPtu ℝ).m_vel_max_tics 0 = 10 ∧
     (ptuRobot .STATE_VELOCITY_CONTROL : vpRobotFlirPtu ℝ).m_res 0 = 1) ∧
    ((ptuRobot .STATE_VELOCITY_CONTROL : vpRobotFlirPtu ℝ).setJointVelocity okDevice
      (fun x : ℝ => x * 180 / Real.pi) [7 * Real.pi / 120, 0]).err = none := by
  refine ⟨?_, by norm_num, ⟨rfl, rfl⟩, ?_⟩
  · simpa [colGet] using deg_of_seven_pi
  · have h0 : jointVelTics (fun x : ℝ => x * 180 / Real.pi)
        (ptuRobot .STATE_VELOCITY_CONTROL) [7 * Real.pi / 120, 0] 0 = 10 := by
      simp only [jointVelTics, colGet, ptuRobot, Fin.val_zero, List.getD_cons_zero, div_one,
        deg_of_seven_pi, truncToInt]
      rw [if_pos (by norm_num), floor_twentyone_halves]
    have h1 : jointVelTics (fun x : ℝ => x * 180 / Real.pi)
        (ptuRobot .STATE_VELOCITY_CONTROL) [7 * Real.pi / 120, 0] 1 = 0 := by
      simp [jointVelTics, colGet, ptuRobot, truncToInt]
    have hv : ∀ i, (ptuRobot .STATE_VELOCITY_CONTROL : vpRobotFlirPtu ℝ).m_vel_max_tics i = 10 :=
      fun _ => rfl
    have hc : (ptuRobot .STATE_VELOCITY_CONTROL : vpRobotFlirPtu ℝ).m_connected = true := rfl
    have hloop : jointVelLoop (fun x : ℝ => x * 180 / Real.pi)
        (ptuRobot .STATE_VELOCITY_CONTROL) [7 * Real.pi / 120, 0] 0 2 = none := by
      simp [jointVelLoop, h0, h1, hv]
    simp [vpRobotFlirPtu.setJointVelocity, hloop, hc, orElseCall, vpRobotFlirPtu.ptcmd,
      okDevice]

/-- C10, witness: with resolution `1` deg/tick and limit `10` ticks/s, a
request of `pi / 10` rad/s, that is `18` deg/s, is refused. -/
theorem setJointVelocity_limits_witness :
    (ptuRobot .STATE_VELOCITY_CONTROL : vpRobotFlirPtu ℝ).m_connected = true ∧
    (∀ i, 0 < (ptuRobot .STATE_VELOCITY_CONTROL : vpRobotFlirPtu ℝ).m_res i) ∧
    ([Real.pi / 10, 0] : List ℝ).length = 2 ∧
    ((ptuRobot .STATE_VELOCITY_CONTROL : vpRobotFlirPtu ℝ).setJointVelocity okDevice
      (fun x : ℝ => x * 180 / Real.pi) [Real.pi / 10, 0]).err =
      some jointVelocityLimitError :=
  ⟨rfl, fun _ => by simp [ptuRobot], rfl,
  (setJointVelocity_limits okDevice (fun x : ℝ => x * 180 / Real.pi)
    (ptuRobot .STATE_VELOCITY_CONTROL) [Real.pi / 10, 0] rfl
    (fun _ => by simp [ptuRobot]) rfl).mpr
    ⟨0, by
      have hpi : Real.pi ≠ 0 := Real.pi_ne_zero
      have h : (Real.pi / 10 : ℝ) * 180 / Real.pi = 18 := by
        field_simp
        ring
      simp only [colGet, Fin.val_zero, List.getD_cons_zero, ptuRobot, h]
      norm_num⟩⟩

/-- C7: the code at the failing input. With the positioning velocity set to
`0`, inside the range `[0, 100]` that the doc comment of
`setPositioningVelocity` gives, `setPosition(JOINT_STATE, q)` on a connected
robot throws the positioning-velocity error, although `0` is neither below
`0` nor above `100`. -/
theorem setPosition_zero_velocity_rejected :
    (((ptuRobot .STATE_POSITION_CONTROL : vpRobotFlirPtu ℝ).setPositioningVelocity 0).setPosition
      okDevice (fun x : ℝ => x * 180 / Real.pi) .JOINT_STATE [0, 0]).err =
      some positioningVelocityError ∧
    ¬ ((0 : ℝ) < 0 ∨ (0 : ℝ) > 100) := by
  constructor
  · simp [vpRobotFlirPtu.setPosition, vpRobotFlirPtu.setPositioningVelocity, ptuRobot,
      positioningVelocityError]
  · norm_num

/-- The guard of `setPosition` at a positioning velocity of `200`: refused. -/
theorem setPosition_velocity_range_witness :
    (ptuRobot .STATE_POSITION_CONTROL : vpRobotFlirPtu ℝ).m_connected = true ∧
    ([0, 0] : List ℝ).length = 2 ∧
    (((ptuRobot .STATE_POSITION_CONTROL : vpRobotFlirPtu ℝ).setPositioningVelocity 200).setPosition
      okDevice (fun x : ℝ => x * 180 / Real.pi) .JOINT_STATE [0, 0]).err =
      some positioningVelocityError :=
  ⟨rfl, rfl, (setPosition_velocity_range okDevice (fun x : ℝ => x * 180 / Real.pi)
    (ptuRobot .STATE_POSITION_CONTROL) 200 [0, 0] rfl rfl).mpr (Or.inr (by norm_num))⟩

/-- C8, witness: a joint velocity sent to a robot in state `STATE_STOP`. -/
theorem setVelocity_wrong_state_witness :
    (ptuRobot .STATE_STOP : vpRobotFlirPtu ℝ).getRobotState ≠
      vpRobotStateType.STATE_VELOCITY_CONTROL ∧
    ((ptuRobot .STATE_STOP : vpRobotFlirPtu ℝ).setVelocity okDevice
      (fun x : ℝ => x * 180 / Real.pi) (fun v _ => v) .JOINT_STATE [0, 0]).err.map
        vpException.code = some vpErrorCode.wrongStateError :=
  ⟨by decide, (setVelocity_wrong_state okDevice (fun x : ℝ => x * 180 / Real.pi) (fun v _ => v)
    (ptuRobot .STATE_STOP) .JOINT_STATE [0, 0] (by decide)).1⟩

/-- C9, witness: a 3-dim joint velocity sent in velocity-control state. -/
theorem setVelocity_dimension_witness :
    (ptuRobot .STATE_VELOCITY_CONTROL : vpRobotFlirPtu ℝ).getRobotState =
      vpRobotStateType.STATE_VELOCITY_CONTROL ∧
    (ptuRobot .STATE_VELOCITY_CONTROL : vpRobotFlirPtu ℝ).nDof =
      ((vpRobotFlirPtu.new 1 1 : vpRobotFlirPtu ℝ).init 1 1).nDof ∧
    ((ptuRobot .STATE_VELOCITY_CONTROL : vpRobotFlirPtu ℝ).setVelocity okDevice
      (fun x : ℝ => x * 180 / Real.pi) (fun v _ => v) .JOINT_STATE [0, 0, 0]).err.map
        vpException.code = some vpErrorCode.dimensionError :=
  ⟨rfl, rfl, ((setVelocity_dimension okDevice (fun x : ℝ => x * 180 / Real.pi) (fun v _ => v) 1 1
    (vpRobotFlirPtu.new 1 1) (ptuRobot .STATE_VELOCITY_CONTROL) .JOINT_STATE [0, 0, 0]
    rfl rfl).2.2.1 rfl).mpr (by decide)⟩

section VelMaxProofs

variable {α : Type} [LinearOrderedField α] [FloorRing α]

omit [FloorRing α] in
theorem getVelMax_connected (rad : α → α) (r : vpRobotFlirPtu α)
    (hconn : r.m_connected = true) :
    (r.getVelMax rad).1 =
      Except.ok [rad (r.m_res 0 * (r.m_vel_max_tics 0 : α)),
        rad (r.m_res 1 * (r.m_vel_max_tics 1 : α))] := by
  simp [vpRobotFlirPtu.getVelMax, hconn, List.ofFn_succ]

omit [FloorRing α] in
theorem abs_deg_le_of_abs_le_rad (deg rad : α → α) (hdr : ∀ x, deg (rad x) = x)
    (hmono : Monotone deg) (hodd : ∀ x, deg (-x) = -deg x) (q m : α)
    (h : |q| ≤ rad m) : |deg q| ≤ m := by
  have h1 : deg q ≤ m := by
    have := hmono (le_trans (le_abs_self q) h)
    rwa [hdr] at this
  have h2 : -deg q ≤ m := by
    have := hmono (le_trans (neg_le_abs q) h)
    rwa [hdr, hodd] at this
  exact abs_le.mpr ⟨by linarith, h1⟩

theorem jointVelTics_within (deg : α → α) (r : vpRobotFlirPtu α) (qdot : List α) (i : Fin 2)
    (hres : 0 < r.m_res i)
    (h : |deg (colGet qdot i.val)| ≤ r.m_res i * (r.m_vel_max_tics i : α)) :
    ¬ |jointVelTics deg r qdot i| > r.m_vel_max_tics i := by
  unfold jointVelTics
  rw [abs_truncToInt_gt_iff, abs_div, abs_of_pos hres, le_div_iff₀ hres, not_le]
  have : r.m_res i * (r.m_vel_max_tics i : α) < ((r.m_vel_max_tics i : α) + 1) * r.m_res i := by
    nlinarith
  linarith

/-- C11: for a connected robot `getVelMax()` returns, for each joint,
`rad(res_i * vmax_i)`; with positive resolutions, a `qdot` whose two entries
are within that maximum in absolute value is not refused by
`setJointVelocity` with the out-of-limits error. The conversions `deg` and
`rad` are any pair with `deg (rad x) = x`, `deg` monotone and odd. -/
theorem getVelMax_consistent (dev : cpiDevice) (deg rad : α → α) (r : vpRobotFlirPtu α)
    (qdot velMax : List α)
    (hdr : ∀ x, deg (rad x) = x) (hmono : Monotone deg) (hodd : ∀ x, deg (-x) = -deg x)
    (hconn : r.m_connected = true) (hres : ∀ i, 0 < r.m_res i)
    (_hlen : qdot.length = 2) (hv : (r.getVelMax rad).1 = Except.ok velMax) :
    (∀ i : Fin 2, colGet velMax i.val = rad (r.m_res i * (r.m_vel_max_tics i : α))) ∧
    ((∀ i : Fin 2, |colGet qdot i.val| ≤ colGet velMax i.val) →
      (r.setJointVelocity dev deg qdot).err ≠ some jointVelocityLimitError) := by
  rw [getVelMax_connected rad r hconn] at hv
  have hvm : velMax = [rad (r.m_res 0 * (r.m_vel_max_tics 0 : α)),
      rad (r.m_res 1 * (r.m_vel_max_tics 1 : α))] := (Except.ok.inj hv).symm
  have hent : ∀ i : Fin 2,
      colGet velMax i.val = rad (r.m_res i * (r.m_vel_max_tics i : α)) := by
    intro i
    rw [hvm]
    fin_cases i <;> simp [colGet]
  refine ⟨hent, ?_⟩
  intro hq
  rw [Ne, setJointVelocity_limit_iff dev deg r qdot hconn, jointVelLoop_isSome_iff]
  rintro ⟨i, hi⟩
  have hqi := hq i
  rw [hent i] at hqi
  exact jointVelTics_within deg r qdot i (hres i)
    (abs_deg_le_of_abs_le_rad deg rad hdr hmono hodd _ _ hqi) hi

end VelMaxProofs

theorem deg_rad_real (x : ℝ) : (x * Real.pi / 180) * 180 / Real.pi = x := by
  have hpi : Real.pi ≠ 0 := Real.pi_ne_zero
  field_simp

theorem deg_monotone_real : Monotone (fun x : ℝ => x * 180 / Real.pi) := by
  intro a b h
  have hpi : 0 < Real.pi := Real.pi_pos
  show a * 180 / Real.pi ≤ b * 180 / Real.pi
  apply div_le_div_of_nonneg_right _ hpi.le
  linarith

/-- C11, witness: with resolution `1` deg/tick and limit `10` ticks/s the
maximum is `pi / 18` rad/s on both joints, and a request of exactly
`pi / 18` rad/s on the pan joint is not refused. -/
theorem getVelMax_consistent_witness :
    (ptuRobot .STATE_VELOCITY_CONTROL : vpRobotFlirPtu ℝ).m_connected = true ∧
    (∀ i, 0 < (ptuRobot .STATE_VELOCITY_CONTROL : vpRobotFlirPtu ℝ).m_res i) ∧
    ((ptuRobot .STATE_VELOCITY_CONTROL : vpRobotFlirPtu ℝ).getVelMax
      (fun x : ℝ => x * Real.pi / 180)).1 = Except.ok [Real.pi / 18, Real.pi / 18] ∧
    (∀ i : Fin 2, |colGet [Real.pi / 18, 0] i.val| ≤ colGet [Real.pi / 18, Real.pi / 18] i.val) ∧
    ((ptuRobot .STATE_VELOCITY_CONTROL : vpRobotFlirPtu ℝ).setJointVelocity okDevice
      (fun x : ℝ => x * 180 / Real.pi) [Real.pi / 18, 0]).err ≠
      some jointVelocityLimitError :=
  have hv : ((ptuRobot .STATE_VELOCITY_CONTROL : vpRobotFlirPtu ℝ).getVelMax
      (fun x : ℝ => x * Real.pi / 180)).1 = Except.ok [Real.pi / 18, Real.pi / 18] := by
    rw [getVelMax_connected _ _ rfl]
    have h : (1 : ℝ) * ((10 : ℤ) : ℝ) * Real.pi / 180 = Real.pi / 18 := by
      push_cast
      ring
    simp only [ptuRobot, h]
  have hq : ∀ i : Fin 2,
      |colGet [Real.pi / 18, 0] i.val| ≤ colGet [Real.pi / 18, Real.pi / 18] i.val := by
    have hpi : 0 < Real.pi := Real.pi_pos
    intro i
    fin_cases i
    · simp [colGet, abs_of_pos (div_pos hpi (by norm_num : (0 : ℝ) < 18))]
    · simp [colGet]
      positivity
  ⟨rfl, fun _ => by simp [ptuRobot], hv, hq,
    (getVelMax_consistent okDevice (fun x : ℝ => x * 180 / Real.pi)
      (fun x : ℝ => x * Real.pi / 180) (ptuRobot .STATE_VELOCITY_CONTROL)
      [Real.pi / 18, 0] [Real.pi / 18, Real.pi / 18] deg_rad_real deg_monotone_real
      (fun x => by ring) rfl (fun _ => by simp [ptuRobot]) rfl hv).2 hq⟩

end Visp
